import Mathlib

/-!
Verification development for the yzemanbot-mini-app reward/loyalty engine.

The definitions below are a shallow embedding of the accounting logic of
`src/app.py` (the canonical SQLAlchemy-backed engine) together with the tier
function of `src/main.py`.  Machine integers are modelled by `Int`/`Nat`;
Python floats (`multiplier`, `social_dollars`) are modelled by `ℚ`;
timestamps are seconds since an arbitrary epoch, modelled by `Nat`;
calendar days (ISO date strings used as bonus-code period keys) are
modelled by `Nat` day indices.  Fallible endpoints return an outcome type
carrying either the awarded amounts and the updated account, or the exact
error message of the source together with the (unchanged) account state at
the point of the early return.
-/

/-- One entry of the `TIERS` table of `src/app.py`. -/
structure Tier where
  name : String
  refsRequired : Nat
  multiplier : ℚ
  adReward : Nat
  referralReward : Nat
deriving Repr, DecidableEq

/-- The `TIERS` configuration list of `src/app.py` (lines 23-29). -/
def TIERS : List Tier :=
  [ ⟨"Fresher", 0, 1, 51, 1000⟩,
    ⟨"Brute", 50, 6/5, 74, 1500⟩,
    ⟨"Silver", 150, 3/2, 105, 2000⟩,
    ⟨"Gold", 300, 2, 140, 3000⟩,
    ⟨"Platinum", 500, 3, 210, 5000⟩ ]

/-- `calculate_tier` of `src/main.py` (lines 55-64): the if-chain mapping a
referral count to a tier name, with `>=` threshold comparison. -/
def calculate_tier (referrals : Nat) : String :=
  if referrals ≥ 500 then "Platinum"
  else if referrals ≥ 300 then "Gold"
  else if referrals ≥ 150 then "Silver"
  else if referrals ≥ 50 then "Brute"
  else "Fresher"

/-- Spec-side tier resolution, written from the contract's words ("return the
tier whose threshold is the highest one not exceeding `referralCount`") for
comparison against `calculate_tier`. -/
def tierOfSpec (r : Nat) : Tier :=
  ((TIERS.filter (fun t => decide (t.refsRequired ≤ r))).getLast?).getD
    ⟨"Fresher", 0, 1, 51, 1000⟩

/-- Rank of a tier name in the ordered tier table (used to state
monotonicity of tier resolution); unknown names rank 0. -/
def tierRank (name : String) : Nat :=
  match TIERS.findIdx? (fun t => t.name == name) with
  | some i => i
  | none => 0

/-- Python `int()` applied to a (non-NaN) numeric value: truncation toward
zero (floor for non-negative arguments, ceiling for negative ones). -/
def pyInt (q : ℚ) : Int := if 0 ≤ q then ⌊q⌋ else ⌈q⌉

/-- Period-key markers stored in the `used_bonus_codes` JSON column of
`src/app.py`: a daily code stores today's ISO date (modelled as a day
index), a one-time code stores the boolean `True`. -/
inductive BonusMark where
  | onDate (d : Nat)
  | flag
deriving Repr, DecidableEq

/-- The `User` model of `src/app.py` (lines 41-82), restricted to the
columns the accounting engine reads or writes. -/
structure User where
  id : Nat
  telegram_id : Nat
  referral_code : String
  referrer_id : Option Nat
  points : Int
  referrals : Nat
  tier : String
  multiplier : ℚ
  next_tier_refs : Int
  social_dollars : ℚ
  wallet_address : Option String
  last_ad_watch : Option Nat
  last_website_visit : Option Nat
  last_youtube_watch : Option Nat
  last_premium_ad : Option Nat
  ad_count : Nat
  premium_ad_count : Nat
  daily_reset : Nat
  youtube1_completed : Bool
  youtube2_completed : Bool
  youtube3_completed : Bool
  facebook_completed : Bool
  instagram_completed : Bool
  twitter_completed : Bool
  telegram_completed : Bool
  used_bonus_codes : List (String × BonusMark)
deriving Repr, DecidableEq

/-- A freshly created user row with the column defaults of `src/app.py`
(points 0, tier "Fresher", multiplier 1.0, next_tier_refs 50, ...). -/
def mkUser (uid : Nat) : User :=
  { id := uid
    telegram_id := uid
    referral_code := ""
    referrer_id := none
    points := 0
    referrals := 0
    tier := "Fresher"
    multiplier := 1
    next_tier_refs := 50
    social_dollars := 0
    wallet_address := none
    last_ad_watch := none
    last_website_visit := none
    last_youtube_watch := none
    last_premium_ad := none
    ad_count := 0
    premium_ad_count := 0
    daily_reset := 0
    youtube1_completed := false
    youtube2_completed := false
    youtube3_completed := false
    facebook_completed := false
    instagram_completed := false
    twitter_completed := false
    telegram_completed := false
    used_bonus_codes := [] }

/-- Index of a tier name in `TIERS`, with Python's `next(..., -1)` default:
`-1` when the name is unknown (`check_tier_upgrade`, line 131). -/
def tierIndex (name : String) : Int :=
  match TIERS.findIdx? (fun t => t.name == name) with
  | some i => (i : Int)
  | none => -1

/-- Lookup of a tier record by name, Python `next(t for t in TIERS if ...)`
modelled as an `Option` (the generator raises `StopIteration` on `none`). -/
def tiers_find (name : String) : Option Tier :=
  TIERS.find? (fun t => t.name == name)

/-- `check_tier_upgrade` of `src/app.py` (lines 129-143): single-step tier
promotion.  Returns the updated user and the boolean the function returns.
Note the function touches `next_tier_refs` only when an upgrade fires. -/
def check_tier_upgrade (u : User) : User × Bool :=
  let i := tierIndex u.tier
  if i < 4 then
    match TIERS.get? (i + 1).toNat with
    | some nextTier =>
      if u.referrals ≥ nextTier.refsRequired then
        let u' := { u with tier := nextTier.name, multiplier := nextTier.multiplier }
        if i < 3 then
          match TIERS.get? (i + 2).toNat with
          | some nextNext =>
            ({ u' with next_tier_refs := (nextNext.refsRequired : Int) - (u.referrals : Int) },
             true)
          | none => (u', true)
        else ({ u' with next_tier_refs := 0 }, true)
      else (u, false)
    | none => (u, false)
  else (u, false)

/-- `reset_daily_tasks` of `src/app.py` (lines 145-152): when the current
time is past `daily_reset`, zero the two ad counters and move the reset
mark to now + 24h (86400 seconds). -/
def reset_daily_tasks (now : Nat) (u : User) : User :=
  if now > u.daily_reset then
    { u with ad_count := 0, premium_ad_count := 0, daily_reset := now + 86400 }
  else u

/-- The referral-attribution block of the `telegram_auth_required` decorator
in `src/app.py` (lines 190-197), given that the supplied `ref_code` resolved
to the account `referrer`.  The guard skips silently when the referrer is
the user itself or the user is already attributed; on the success path the
credit is computed from the referrer's cached `multiplier` and cached
`tier`'s `referralReward` (line 195) and only afterwards is
`check_tier_upgrade` run (line 196).  `none` models the `StopIteration`
that line 195 would raise for a tier name absent from `TIERS`. -/
def apply_referral (user referrer : User) : Option (User × User) :=
  if referrer.id ≠ user.id ∧ user.referrer_id = none then
    match tiers_find referrer.tier with
    | none => none
    | some ct =>
      let user' := { user with referrer_id := some referrer.id }
      let referrer' := { referrer with
        referrals := referrer.referrals + 1,
        points := referrer.points + pyInt (referrer.multiplier * (ct.referralReward : ℚ)) }
      some (user', (check_tier_upgrade referrer').1)
  else some (user, referrer)

/-- Outcome of the `/api/complete-task` endpoint: either success with the
`points_awarded` value of the JSON response and the committed user row, or
the endpoint's error message together with the (unmodified) user row at the
point of the early `return` — every error branch of the source returns
before any mutation or commit. -/
inductive TaskOutcome where
  | ok (points_awarded : Int) (u : User)
  | err (msg : String) (u : User)
deriving Repr, DecidableEq

/-- The seven social-platform keys that exist as `<platform>_completed`
boolean columns of the `User` model (`src/app.py`, lines 71-77). -/
def SOCIAL_KEYS : List String :=
  ["youtube1", "youtube2", "youtube3", "facebook", "instagram", "twitter", "telegram"]

/-- `getattr(user, f'{platform}_completed', False)` (`src/app.py`, line
275): reads the matching completed column, defaulting to `False` for any
platform string that is not one of the seven column names (a freshly
loaded row carries no other `*_completed` attribute). -/
def social_completed (u : User) (p : String) : Bool :=
  if p = "youtube1" then u.youtube1_completed
  else if p = "youtube2" then u.youtube2_completed
  else if p = "youtube3" then u.youtube3_completed
  else if p = "facebook" then u.facebook_completed
  else if p = "instagram" then u.instagram_completed
  else if p = "twitter" then u.twitter_completed
  else if p = "telegram" then u.telegram_completed
  else false

/-- `setattr(user, f'{platform}_completed', True)` (`src/app.py`, line
279): sets the matching completed column.  For a platform string that is
not one of the seven columns the `setattr` creates a transient Python
attribute that is not a mapped column and is never persisted by the
commit, so on the persisted state it is the identity. -/
def set_social (u : User) (p : String) : User :=
  if p = "youtube1" then { u with youtube1_completed := true }
  else if p = "youtube2" then { u with youtube2_completed := true }
  else if p = "youtube3" then { u with youtube3_completed := true }
  else if p = "facebook" then { u with facebook_completed := true }
  else if p = "instagram" then { u with instagram_completed := true }
  else if p = "twitter" then { u with twitter_completed := true }
  else if p = "telegram" then { u with telegram_completed := true }
  else u

/-- The body of the `/api/complete-task` endpoint (`src/app.py`, lines
228-287).  `now` is the current UTC time in seconds; `platform` models
`data.get('platform')` where `none` stands for a missing key and
`some ""` for an empty string (both falsy in Python).  The site-visit and
video-watch gates compare `(utcnow() - last).days < 1`, i.e. the floor of
the elapsed seconds over 86400. -/
def complete_task (now : Nat) (u : User) (task_type : String)
    (platform : Option String) : TaskOutcome :=
  if task_type = "ad_watch" then
    match tiers_find u.tier with
    | none => .err "StopIteration" u
    | some ct =>
      let pts := pyInt ((ct.adReward : ℚ) * u.multiplier)
      .ok pts { u with points := u.points + pts,
                       ad_count := u.ad_count + 1,
                       last_ad_watch := some now }
  else if task_type = "premium_ad" then
    if u.premium_ad_count ≥ 1 then .err "Premium ad limit reached" u
    else
      let pts := pyInt (1000 * u.multiplier)
      .ok pts { u with points := u.points + pts,
                       premium_ad_count := u.premium_ad_count + 1,
                       last_premium_ad := some now }
  else if task_type = "website_visit" then
    if (match u.last_website_visit with
        | some t => decide ((now - t) / 86400 < 1)
        | none => false) then
      .err "Task already completed today" u
    else
      let pts := pyInt (500 * u.multiplier)
      .ok pts { u with points := u.points + pts, last_website_visit := some now }
  else if task_type = "youtube_watch" then
    if (match u.last_youtube_watch with
        | some t => decide ((now - t) / 86400 < 1)
        | none => false) then
      .err "Task already completed today" u
    else
      let pts := pyInt (2000 * u.multiplier)
      .ok pts { u with points := u.points + pts, last_youtube_watch := some now }
  else if task_type = "social" then
    match platform with
    | none => .err "Platform not specified" u
    | some p =>
      if p = "" then .err "Platform not specified" u
      else if social_completed u p then .err "Task already completed" u
      else .ok 50 { (set_social u p) with social_dollars := u.social_dollars + 50 }
  else .err "Invalid task type" u

/-- The full request path of a task completion: the
`telegram_auth_required` decorator runs `reset_daily_tasks` (line 200)
before the endpoint body executes. -/
def complete_task_request (now : Nat) (u : User) (task_type : String)
    (platform : Option String) : TaskOutcome :=
  complete_task now (reset_daily_tasks now u) task_type platform

/-- One entry of the `BONUS_CODES` table of `src/app.py`. -/
structure BonusInfo where
  points : Int
  dollars : ℚ
  daily : Bool
deriving Repr, DecidableEq

/-- `BONUS_CODES.get(code)` over the configuration dict of `src/app.py`
(lines 32-38); every configured code is a daily code. -/
def lookupBonus (code : String) : Option BonusInfo :=
  if code = "BASER" then some ⟨2000, 0, true⟩
  else if code = "BOTYZEMAN" then some ⟨100000, 0, true⟩
  else if code = "EARNSBOTT" then some ⟨0, 15, true⟩
  else if code = "BONUSBOTTER" then some ⟨0, 100, true⟩
  else if code = "GAINMASTER" then some ⟨50000, 100, true⟩
  else none

/-- `user.used_bonus_codes.get(code)` on the JSON dict, modelled as an
association-list lookup. -/
def lookupUsed (u : User) (code : String) : Option BonusMark :=
  (u.used_bonus_codes.find? (fun pr => pr.1 == code)).map Prod.snd

/-- `user.used_bonus_codes[code] = mark`: dict assignment on the
association list (replace the existing key or append). -/
def setUsed : List (String × BonusMark) → String → BonusMark → List (String × BonusMark)
  | [], c, m => [(c, m)]
  | (k, v) :: rest, c, m =>
    if k = c then (k, m) :: rest else (k, v) :: setUsed rest c m

/-- Outcome of the `/api/redeem-bonus` endpoint: success carries the
`points_awarded` and `dollars_awarded` response fields and the committed
row; errors carry the message and the unmodified row. -/
inductive RedeemOutcome where
  | ok (points_awarded : Int) (dollars_awarded : ℚ) (u : User)
  | err (msg : String) (u : User)
deriving Repr, DecidableEq

/-- The body of the `/api/redeem-bonus` endpoint (`src/app.py`, lines
289-334) on the already-normalised code (`data.get('code','')
.strip().upper()` is applied by the endpoint before any check; see
`redeem_bonus_endpoint`).  `today` is `utcnow().date().isoformat()`
modelled as a day index.  Crediting adds `bonus.points` / `bonus.dollars`
only under the source's `> 0` guards; the recorded period key is today's
date for a daily code and the sentinel `True` for a one-time code. -/
def redeem_bonus (today : Nat) (u : User) (code : String) : RedeemOutcome :=
  if code = "" then .err "Code is required" u
  else
    match lookupBonus code with
    | none => .err "Invalid bonus code" u
    | some bonus =>
      if bonus.daily ∧ lookupUsed u code = some (.onDate today) then
        .err "Code already used today" u
      else if ¬bonus.daily ∧ (lookupUsed u code).isSome then
        .err "Code already used" u
      else
        let pa := if bonus.points > 0 then bonus.points else 0
        let da := if bonus.dollars > 0 then bonus.dollars else 0
        let mark := if bonus.daily then BonusMark.onDate today else BonusMark.flag
        .ok pa da { u with points := u.points + pa,
                           social_dollars := u.social_dollars + da,
                           used_bonus_codes := setUsed u.used_bonus_codes code mark }

/-- The raw endpoint including the source's normalisation of the supplied
code string. -/
def redeem_bonus_endpoint (today : Nat) (u : User) (raw : String) : RedeemOutcome :=
  redeem_bonus today u raw.trim.toUpper

/-- Outcome of the `/api/withdraw` endpoint: success carries the computed
balance (the amount quoted in the admin notification) and the zeroed row;
errors carry the message and the unmodified row. -/
inductive WithdrawOutcome where
  | ok (amount : ℚ) (u : User)
  | err (msg : String) (u : User)
deriving Repr, DecidableEq

/-- `total_balance = (user.points / 100000) + user.social_dollars`
(`src/app.py`, line 344); Python's true division modelled in ℚ. -/
def total_balance (u : User) : ℚ := (u.points : ℚ) / 100000 + u.social_dollars

/-- Python truthiness of the `wallet_address` column: `None` and the empty
string are falsy. -/
def walletSet : Option String → Bool
  | none => false
  | some s => !s.isEmpty

/-- The body of the `/api/withdraw` endpoint (`src/app.py`, lines 336-368):
reject below the $1000 minimum, then reject an unset wallet, otherwise
notify the admin (out of scope) and zero `points` and `social_dollars`. -/
def withdraw (u : User) : WithdrawOutcome :=
  if total_balance u < 1000 then .err "Minimum withdrawal is $1000" u
  else if ¬walletSet u.wallet_address then .err "Wallet address not set" u
  else .ok (total_balance u) { u with points := 0, social_dollars := 0 }

/-! ## Helper lemmas -/

/-- `calculate_tier` agrees with the spec-side "highest threshold not
exceeding the referral count" resolution. -/
theorem calculate_tier_eq_spec (r : Nat) : calculate_tier r = (tierOfSpec r).name := by
  unfold calculate_tier tierOfSpec TIERS
  have h0 : (0 : Nat) ≤ r := Nat.zero_le r
  by_cases h5 : 500 ≤ r
  · have h3 : 300 ≤ r := by omega
    have h2 : 150 ≤ r := by omega
    have h1 : 50 ≤ r := by omega
    simp [List.filter, h0, h1, h2, h3, h5]
  · by_cases h3 : 300 ≤ r
    · have h2 : 150 ≤ r := by omega
      have h1 : 50 ≤ r := by omega
      simp [List.filter, h0, h1, h2, h3, h5]
    · by_cases h2 : 150 ≤ r
      · have h1 : 50 ≤ r := by omega
        simp [List.filter, h0, h1, h2, h3, h5]
      · by_cases h1 : 50 ≤ r
        · simp [List.filter, h0, h1, h2, h3, h5]
        · simp [List.filter, h0, h1, h2, h3, h5]

/-- The tier rank of `calculate_tier` as an explicit step function. -/
theorem tierRank_calculate (r : Nat) :
    tierRank (calculate_tier r) =
      (if 500 ≤ r then 4 else if 300 ≤ r then 3 else if 150 ≤ r then 2
       else if 50 ≤ r then 1 else 0) := by
  unfold calculate_tier
  split_ifs <;> decide

/-! ## Claim theorems -/

/-- C4: Tier resolution returns the tier whose threshold is the highest one
not exceeding the referral count over the ordered table (Fresher 0, Brute
50, Silver 150, Gold 300, Platinum 500) with `≥` comparison, so a count
exactly equal to a threshold is promoted; it is monotonically non-decreasing
and maps 0 to the lowest tier. -/
theorem C4_tier_resolution :
    (∀ r, calculate_tier r = (tierOfSpec r).name) ∧
    (∀ r s : Nat, r ≤ s → tierRank (calculate_tier r) ≤ tierRank (calculate_tier s)) ∧
    calculate_tier 0 = "Fresher" ∧
    (∀ t ∈ TIERS, calculate_tier t.refsRequired = t.name) := by
  refine ⟨calculate_tier_eq_spec, ?_, by decide, by decide⟩
  intro r s hrs
  rw [tierRank_calculate, tierRank_calculate]
  split_ifs <;> omega

/-- C3: Referral attribution is idempotent and first-touch: when the new
account already carries a `referrer_id`, or when the referral resolves to
the account itself, the attribution block of `telegram_auth_required`
leaves both accounts entirely unchanged and raises no error. -/
theorem C3_referral_idempotent (user referrer : User) :
    (∀ rid, user.referrer_id = some rid →
      apply_referral user referrer = some (user, referrer)) ∧
    (referrer.id = user.id → apply_referral user referrer = some (user, referrer)) := by
  constructor
  · intro rid h
    simp [apply_referral, h]
  · intro h
    simp [apply_referral, h]

/-- A concrete instantiation of C3: an already-attributed account and a
self-referral are both silently ignored. -/
theorem C3_referral_idempotent_witness :
    apply_referral { mkUser 2 with referrer_id := some 7 } (mkUser 1)
      = some ({ mkUser 2 with referrer_id := some 7 }, mkUser 1) ∧
    apply_referral (mkUser 3) (mkUser 3) = some (mkUser 3, mkUser 3) :=
  ⟨(C3_referral_idempotent { mkUser 2 with referrer_id := some 7 } (mkUser 1)).1 7 rfl,
   (C3_referral_idempotent (mkUser 3) (mkUser 3)).2 rfl⟩

/-- C1: The withdrawal endpoint computes
`total_balance = points / 100000 + social_dollars`, rejects below the 1000
minimum first, then rejects an unset wallet, zeroes `points` and
`social_dollars` exactly when the balance meets the minimum and the wallet
is set, and leaves both balances untouched on every rejection. -/
theorem C1_withdrawal (u : User) :
    (total_balance u < 1000 → withdraw u = .err "Minimum withdrawal is $1000" u) ∧
    (1000 ≤ total_balance u → walletSet u.wallet_address = false →
      withdraw u = .err "Wallet address not set" u) ∧
    (1000 ≤ total_balance u → walletSet u.wallet_address = true →
      withdraw u = .ok (total_balance u) { u with points := 0, social_dollars := 0 }) ∧
    (∀ msg u', withdraw u = .err msg u' → u' = u) ∧
    (∀ amt u', withdraw u = .ok amt u' →
      1000 ≤ total_balance u ∧ walletSet u.wallet_address = true ∧
      u'.points = 0 ∧ u'.social_dollars = 0) := by
  refine ⟨?_, ?_, ?_, ?_, ?_⟩
  · intro h
    simp [withdraw, h]
  · intro h hw
    simp [withdraw, not_lt.mpr h, hw]
  · intro h hw
    simp [withdraw, not_lt.mpr h, hw]
  · intro msg u' h
    unfold withdraw at h
    split_ifs at h <;> simp_all
  · intro amt u' h
    unfold withdraw at h
    split_ifs at h with h1 h2
    simp only [WithdrawOutcome.ok.injEq] at h
    obtain ⟨hamt, hu⟩ := h
    subst hu
    exact ⟨not_lt.mp h1, h2, rfl, rfl⟩

/-- An account matching the spec's withdrawal scenario: points 99,999,999,
socialDollars 0.5 and a set wallet, so the computed balance is
1000.49999. -/
def richUser : User :=
  { mkUser 1 with points := 99999999, social_dollars := 1/2,
                  wallet_address := some "TX12345678901234567890" }

/-- A concrete instantiation of C1: the spec's own scenario (balance
1000.49999 ≥ 1000 with a wallet set, so the withdrawal succeeds and zeroes
both balances), and a fresh account is rejected for not meeting the
minimum. -/
theorem C1_withdrawal_witness :
    withdraw richUser
      = .ok (total_balance richUser) { richUser with points := 0, social_dollars := 0 } ∧
    withdraw (mkUser 2) = .err "Minimum withdrawal is $1000" (mkUser 2) :=
  ⟨(C1_withdrawal richUser).2.2.1 (by norm_num [total_balance, richUser, mkUser]) rfl,
   (C1_withdrawal (mkUser 2)).1 (by norm_num [total_balance, mkUser])⟩

/-- `check_tier_upgrade` never touches the points, referral count or
attribution of the account; it only rewrites the cached tier fields. -/
theorem check_tier_upgrade_stable (u : User) :
    (check_tier_upgrade u).1.points = u.points ∧
    (check_tier_upgrade u).1.referrals = u.referrals ∧
    (check_tier_upgrade u).1.referrer_id = u.referrer_id := by
  refine ⟨?_, ?_, ?_⟩ <;>
    (unfold check_tier_upgrade
     dsimp only
     repeat' split
     all_goals rfl)

/-- Shape of a successful run of the referral-attribution block: the new
account gets the back-reference, the referrer gets the incremented count
and the credit computed from the cached tier record `ct`, and
`check_tier_upgrade` is applied to that intermediate state. -/
theorem apply_referral_success (user referrer : User) (ct : Tier)
    (hne : referrer.id ≠ user.id) (hun : user.referrer_id = none)
    (hct : tiers_find referrer.tier = some ct) :
    apply_referral user referrer =
      some ({ user with referrer_id := some referrer.id },
        (check_tier_upgrade { referrer with
           referrals := referrer.referrals + 1,
           points := referrer.points
             + pyInt (referrer.multiplier * (ct.referralReward : ℚ)) }).1) := by
  simp [apply_referral, hne, hun, hct]

/-- The referrer used in the C2 counterexample: 49 referrals, cached tier
"Fresher", cached multiplier 1.0 (a state the engine itself produces after
49 attributed referrals of a fresh account). -/
def referrer49 : User := { mkUser 1 with referrals := 49 }

/-- C2 counterexample: processing the 50th referral of a "Fresher" referrer
credits `int(1.0 × 1000) = 1000` points — the reward of the tier cached
*before* tier resolution is re-run — even though the same referral promotes
the referrer to "Brute" (multiplier 1.2, referralReward 1500), whose reward
would be `int(1500 × 1.2) = 1800`.  The claim's value (1800, reflecting the
promotion) differs from the credited 1000. -/
theorem C2_counterexample :
    ((apply_referral (mkUser 2) referrer49).map fun p =>
        (p.2.tier, p.2.multiplier, p.2.points))
      = some ("Brute", 6/5, 1000) ∧
    pyInt ((6/5 : ℚ) * 1500) = 1800 ∧ ((1000 : Int) ≠ 1800) := by
  refine ⟨?_, by norm_num [pyInt], by norm_num⟩
  simp [apply_referral, tiers_find, check_tier_upgrade, tierIndex, TIERS, mkUser,
        referrer49, pyInt]

/-- C2 (amended): successful referral processing sets the new account's
`referrer_id`, increments the referrer's `referrals` by exactly 1, credits
`int(referrer.multiplier × referralReward_of_cached_tier)` points computed
from the tier and multiplier cached *before* this referral's tier
resolution, and only then re-runs single-step tier resolution
(`check_tier_upgrade`) on the referrer. -/
theorem C2_referral_credit (user referrer : User) (ct : Tier)
    (hne : referrer.id ≠ user.id) (hun : user.referrer_id = none)
    (hct : tiers_find referrer.tier = some ct) :
    apply_referral user referrer =
      some ({ user with referrer_id := some referrer.id },
        (check_tier_upgrade { referrer with
           referrals := referrer.referrals + 1,
           points := referrer.points
             + pyInt (referrer.multiplier * (ct.referralReward : ℚ)) }).1) ∧
    (∀ p, apply_referral user referrer = some p →
      p.1.referrer_id = some referrer.id ∧
      p.2.referrals = referrer.referrals + 1 ∧
      p.2.points = referrer.points
        + pyInt (referrer.multiplier * (ct.referralReward : ℚ))) := by
  have heq := apply_referral_success user referrer ct hne hun hct
  refine ⟨heq, ?_⟩
  intro p hp
  rw [heq] at hp
  obtain rfl := Option.some_injective _ hp
  refine ⟨rfl, ?_, ?_⟩
  · rw [(check_tier_upgrade_stable _).2.1]
  · rw [(check_tier_upgrade_stable _).1]

/-- A concrete instantiation of C2 (amended): the 50th referral of a
"Fresher" referrer is attributed, increments the count to 50, and credits
1000 points (the pre-promotion reward). -/
theorem C2_referral_credit_witness :
    ((apply_referral (mkUser 2) referrer49).map fun p =>
        (p.1.referrer_id, p.2.referrals, p.2.points))
      = some (some 1, 50, 1000) := by
  have h := (C2_referral_credit (mkUser 2) referrer49 ⟨"Fresher", 0, 1, 51, 1000⟩
      (by decide) rfl rfl).1
  rw [h]
  simp [check_tier_upgrade, tierIndex, TIERS, referrer49, mkUser, pyInt]

/-- A concrete instantiation of C4: the threshold 50 is promoted exactly
(`≥` comparison), monotonicity at a step, and promotion at a table row. -/
theorem C4_tier_resolution_witness :
    calculate_tier 50 = (tierOfSpec 50).name ∧
    tierRank (calculate_tier 49) ≤ tierRank (calculate_tier 50) ∧
    calculate_tier ((⟨"Brute", 50, 6/5, 74, 1500⟩ : Tier).refsRequired) = "Brute" :=
  ⟨C4_tier_resolution.1 50,
   C4_tier_resolution.2.1 49 50 (by norm_num),
   C4_tier_resolution.2.2.2 ⟨"Brute", 50, 6/5, 74, 1500⟩ (by simp [TIERS])⟩

/-- The spec-side tier resolution as an explicit interval function. -/
theorem tierOfSpec_eq (r : Nat) :
    tierOfSpec r = (if 500 ≤ r then ⟨"Platinum", 500, 3, 210, 5000⟩
      else if 300 ≤ r then ⟨"Gold", 300, 2, 140, 3000⟩
      else if 150 ≤ r then ⟨"Silver", 150, 3/2, 105, 2000⟩
      else if 50 ≤ r then ⟨"Brute", 50, 6/5, 74, 1500⟩
      else ⟨"Fresher", 0, 1, 51, 1000⟩) := by
  unfold tierOfSpec TIERS
  have h0 : (0 : Nat) ≤ r := Nat.zero_le r
  by_cases h5 : 500 ≤ r
  · have h3 : 300 ≤ r := by omega
    have h2 : 150 ≤ r := by omega
    have h1 : 50 ≤ r := by omega
    simp [List.filter, h0, h1, h2, h3, h5]
  · by_cases h3 : 300 ≤ r
    · have h2 : 150 ≤ r := by omega
      have h1 : 50 ≤ r := by omega
      simp [List.filter, h0, h1, h2, h3, h5]
    · by_cases h2 : 150 ≤ r
      · have h1 : 50 ≤ r := by omega
        simp [List.filter, h0, h1, h2, h3, h5]
      · by_cases h1 : 50 ≤ r
        · simp [List.filter, h0, h1, h2, h3, h5]
        · simp [List.filter, h0, h1, h2, h3, h5]

/-- The table lookup by name recovers the resolved tier record. -/
theorem tiers_find_tierOfSpec (r : Nat) :
    tiers_find (tierOfSpec r).name = some (tierOfSpec r) := by
  rw [tierOfSpec_eq]
  split_ifs <;> rfl

/-- Spec-side next-tier progress (written from the contract's words in
the tier-resolution section): below the top tier, the threshold of the
first table entry exceeding the referral count minus the count
(`nextThreshold − referralCount`); at the top tier, 0. -/
def nextTierProgressSpec (r : Nat) : Int :=
  match (TIERS.filter (fun t => decide (r < t.refsRequired))).head? with
  | some t => (t.refsRequired : Int) - (r : Int)
  | none => 0

/-- The spec-side next-tier progress as an explicit interval function. -/
theorem nextTierProgressSpec_eq (r : Nat) :
    nextTierProgressSpec r =
      (if 500 ≤ r then 0
       else if 300 ≤ r then 500 - (r : Int)
       else if 150 ≤ r then 300 - (r : Int)
       else if 50 ≤ r then 150 - (r : Int)
       else 50 - (r : Int)) := by
  unfold nextTierProgressSpec TIERS
  have hn0 : ¬r < 0 := by omega
  by_cases h5 : 500 ≤ r
  · have hx5 : ¬r < 500 := by omega
    have hx3 : ¬r < 300 := by omega
    have hx2 : ¬r < 150 := by omega
    have hx1 : ¬r < 50 := by omega
    simp [List.filter, hn0, hx1, hx2, hx3, hx5, h5]
  · have hx5 : r < 500 := by omega
    by_cases h3 : 300 ≤ r
    · have hx3 : ¬r < 300 := by omega
      have hx2 : ¬r < 150 := by omega
      have hx1 : ¬r < 50 := by omega
      simp [List.filter, hn0, hx1, hx2, hx3, hx5, h5, h3]
    · have hx3 : r < 300 := by omega
      by_cases h2 : 150 ≤ r
      · have hx2 : ¬r < 150 := by omega
        have hx1 : ¬r < 50 := by omega
        simp [List.filter, hn0, hx1, hx2, hx3, hx5, h5, h3, h2]
      · have hx2 : r < 150 := by omega
        by_cases h1 : 50 ≤ r
        · have hx1 : ¬r < 50 := by omega
          simp [List.filter, hn0, hx1, hx2, hx3, hx5, h5, h3, h2, h1]
        · have hx1 : r < 50 := by omega
          simp [List.filter, hn0, hx1, hx2, hx3, hx5, h5, h3, h2, h1]

/-- Single-step behaviour of `check_tier_upgrade` after one additional
referral of an account whose cached tier and multiplier were consistent
with `r` referrals: the cached tier and multiplier become consistent with
`r + 1` referrals; when no promotion occurs (the resolved tier name is
unchanged) `next_tier_refs` is left untouched, and when a promotion fires
it is rewritten to the spec-side next-tier progress of the new count
(`nextThreshold − referralCount`, 0 at the top tier). -/
theorem check_tier_upgrade_step (r : Nat) (u : User)
    (hr : u.referrals = r + 1)
    (ht : u.tier = (tierOfSpec r).name)
    (hm : u.multiplier = (tierOfSpec r).multiplier) :
    (check_tier_upgrade u).1.tier = (tierOfSpec (r + 1)).name ∧
    (check_tier_upgrade u).1.multiplier = (tierOfSpec (r + 1)).multiplier ∧
    ((tierOfSpec (r + 1)).name = (tierOfSpec r).name →
      (check_tier_upgrade u).1.next_tier_refs = u.next_tier_refs) ∧
    ((tierOfSpec (r + 1)).name ≠ (tierOfSpec r).name →
      (check_tier_upgrade u).1.next_tier_refs = nextTierProgressSpec (r + 1)) := by
  simp only [tierOfSpec_eq, nextTierProgressSpec_eq] at ht hm ⊢
  by_cases h500 : 500 ≤ r
  · have h499 : 499 ≤ r := by omega
    have h300 : 300 ≤ r := by omega
    have h299 : 299 ≤ r := by omega
    have h150 : 150 ≤ r := by omega
    have h149 : 149 ≤ r := by omega
    have h50 : 50 ≤ r := by omega
    have h49 : 49 ≤ r := by omega
    simp [check_tier_upgrade, tierIndex, TIERS, ht, hm, hr,
          h500, h499, h300, h299, h150, h149, h50, h49]
  · by_cases h300 : 300 ≤ r
    · have h299 : 299 ≤ r := by omega
      have h150 : 150 ≤ r := by omega
      have h149 : 149 ≤ r := by omega
      have h50 : 50 ≤ r := by omega
      have h49 : 49 ≤ r := by omega
      by_cases h499 : 499 ≤ r
      · simp [check_tier_upgrade, tierIndex, TIERS, ht, hm, hr,
              h500, h499, h300, h299, h150, h149, h50, h49]
      · simp [check_tier_upgrade, tierIndex, TIERS, ht, hm, hr,
              h500, h499, h300, h299, h150, h149, h50, h49]
    · by_cases h150 : 150 ≤ r
      · have h149 : 149 ≤ r := by omega
        have h499 : ¬499 ≤ r := by omega
        have h50 : 50 ≤ r := by omega
        have h49 : 49 ≤ r := by omega
        by_cases h299 : 299 ≤ r
        · simp [check_tier_upgrade, tierIndex, TIERS, ht, hm, hr,
                h500, h499, h300, h299, h150, h149, h50, h49]
        · simp [check_tier_upgrade, tierIndex, TIERS, ht, hm, hr,
                h500, h499, h300, h299, h150, h149, h50, h49]
      · by_cases h50 : 50 ≤ r
        · have h49 : 49 ≤ r := by omega
          have h499 : ¬499 ≤ r := by omega
          have h299 : ¬299 ≤ r := by omega
          by_cases h149 : 149 ≤ r
          · simp [check_tier_upgrade, tierIndex, TIERS, ht, hm, hr,
                  h500, h499, h300, h299, h150, h149, h50, h49]
          · simp [check_tier_upgrade, tierIndex, TIERS, ht, hm, hr,
                  h500, h499, h300, h299, h150, h149, h50, h49]
        · have h499 : ¬499 ≤ r := by omega
          have h299 : ¬299 ≤ r := by omega
          have h149 : ¬149 ≤ r := by omega
          by_cases h49 : 49 ≤ r
          · simp [check_tier_upgrade, tierIndex, TIERS, ht, hm, hr,
                  h500, h499, h300, h299, h150, h149, h50, h49]
          · simp [check_tier_upgrade, tierIndex, TIERS, ht, hm, hr,
                  h500, h499, h300, h299, h150, h149, h50, h49]

/-- C5 counterexample: a fresh referrer (tier "Fresher", `next_tier_refs`
50) receives its first referral.  `check_tier_upgrade` fires no upgrade
(1 < 50), so `next_tier_refs` keeps its stored value 50, while the claim
requires `nextThreshold − referralCount = 50 − 1 = 49` after the operation:
the cached next-tier-progress field is left stale. -/
theorem C5_counterexample :
    ((apply_referral (mkUser 2) (mkUser 1)).map fun p =>
        (p.2.referrals, p.2.tier, p.2.next_tier_refs))
      = some (1, "Fresher", 50) ∧
    ((50 : Int) ≠ 50 - 1) := by
  refine ⟨?_, by norm_num⟩
  simp [apply_referral, tiers_find, check_tier_upgrade, tierIndex, TIERS, mkUser, pyInt]

/-- C5 (amended): when the referral count changes (which happens only in
referral processing), the cached `tier` and `multiplier` are re-resolved in
the same operation and stay consistent with the new count; the cached
`next_tier_refs` field, however, is rewritten only when a promotion
actually fires — then it equals `nextThreshold − referralCount` (0 at the
top tier), while when the resolved tier is unchanged it keeps its previous
(now stale) value instead of `nextThreshold − referralCount`. -/
theorem C5_tier_cache (user referrer : User) (r : Nat)
    (hr : referrer.referrals = r)
    (hne : referrer.id ≠ user.id) (hun : user.referrer_id = none)
    (ht : referrer.tier = (tierOfSpec r).name)
    (hm : referrer.multiplier = (tierOfSpec r).multiplier) :
    ∀ p, apply_referral user referrer = some p →
      p.2.referrals = r + 1 ∧
      p.2.tier = (tierOfSpec (r + 1)).name ∧
      p.2.multiplier = (tierOfSpec (r + 1)).multiplier ∧
      ((tierOfSpec (r + 1)).name = (tierOfSpec r).name →
        p.2.next_tier_refs = referrer.next_tier_refs) ∧
      ((tierOfSpec (r + 1)).name ≠ (tierOfSpec r).name →
        p.2.next_tier_refs = nextTierProgressSpec (r + 1)) := by
  intro p hp
  have hct : tiers_find referrer.tier = some (tierOfSpec r) := by
    rw [ht]; exact tiers_find_tierOfSpec r
  have heq := apply_referral_success user referrer (tierOfSpec r) hne hun hct
  rw [heq] at hp
  obtain rfl := Option.some_injective _ hp
  have hstep := check_tier_upgrade_step r
    { referrer with
      referrals := referrer.referrals + 1,
      points := referrer.points
        + pyInt (referrer.multiplier * ((tierOfSpec r).referralReward : ℚ)) }
    (by simp [hr]) ht hm
  refine ⟨?_, hstep.1, hstep.2.1, ?_, ?_⟩
  · rw [(check_tier_upgrade_stable _).2.1]
    simp [hr]
  · intro hsame
    exact hstep.2.2.1 hsame
  · intro hdiff
    exact hstep.2.2.2 hdiff

/-- A concrete instantiation of C5 (amended): the first referral of a
fresh referrer keeps tier "Fresher" and multiplier 1 (consistent with 1
referral) and — the tier being unchanged — keeps the stored (stale)
`next_tier_refs`; the 50th referral of a "Fresher" referrer promotes it to
"Brute" and rewrites `next_tier_refs` to the spec-side next-tier progress
`150 − 50`. -/
theorem C5_tier_cache_witness :
    ((apply_referral (mkUser 2) (mkUser 1)).map fun p =>
        (p.2.referrals, p.2.tier, p.2.multiplier, p.2.next_tier_refs))
      = some (0 + 1, (tierOfSpec 1).name, (tierOfSpec 1).multiplier,
              (mkUser 1).next_tier_refs) ∧
    ((apply_referral (mkUser 2) referrer49).map fun p =>
        (p.2.referrals, p.2.tier, p.2.multiplier, p.2.next_tier_refs))
      = some (49 + 1, (tierOfSpec 50).name, (tierOfSpec 50).multiplier,
              nextTierProgressSpec 50) := by
  constructor
  · have heval : apply_referral (mkUser 2) (mkUser 1)
        = some ({ mkUser 2 with referrer_id := some 1 },
                { mkUser 1 with referrals := 1, points := 1000 }) := by
      simp [apply_referral, tiers_find, check_tier_upgrade, tierIndex, TIERS, mkUser, pyInt]
    have h := C5_tier_cache (mkUser 2) (mkUser 1) 0 rfl (by decide) rfl rfl rfl
      ({ mkUser 2 with referrer_id := some 1 },
       { mkUser 1 with referrals := 1, points := 1000 }) heval
    rw [heval]
    simp only [Option.map_some']
    rw [← h.1, ← h.2.1, ← h.2.2.1, ← h.2.2.2.1 (by rfl)]
  · have heval : apply_referral (mkUser 2) referrer49
        = some ({ mkUser 2 with referrer_id := some 1 },
                { referrer49 with
                  referrals := 50, points := 1000, tier := "Brute",
                  multiplier := 6/5, next_tier_refs := 100 }) := by
      simp [apply_referral, tiers_find, check_tier_upgrade, tierIndex, TIERS, mkUser,
            referrer49, pyInt]
    have h := C5_tier_cache (mkUser 2) referrer49 49 rfl (by decide) rfl rfl rfl
      ({ mkUser 2 with referrer_id := some 1 },
       { referrer49 with
         referrals := 50, points := 1000, tier := "Brute",
         multiplier := 6/5, next_tier_refs := 100 }) heval
    rw [heval]
    simp only [Option.map_some']
    rw [← h.1, ← h.2.1, ← h.2.2.1, ← h.2.2.2.2 (by decide)]

/-- Every configured bonus code awards non-negative amounts and is a daily
code (the `BONUS_CODES` table of `src/app.py` contains no one-time code). -/
theorem lookupBonus_props (code : String) (b : BonusInfo)
    (hb : lookupBonus code = some b) :
    0 ≤ b.points ∧ 0 ≤ b.dollars ∧ b.daily = true := by
  unfold lookupBonus at hb
  split_ifs at hb <;> (injection hb with hb; subst hb) <;> norm_num

/-- A code found in the table is non-empty. -/
theorem lookupBonus_ne_empty (code : String) (b : BonusInfo)
    (hb : lookupBonus code = some b) : code ≠ "" := by
  intro h
  rw [h] at hb
  simp [lookupBonus] at hb

/-- Dict assignment followed by lookup of the same key returns the new
mark. -/
theorem lookupUsed_setUsed (l : List (String × BonusMark)) (c : String) (m : BonusMark) :
    ((setUsed l c m).find? (fun pr => pr.1 == c)).map Prod.snd = some m := by
  induction l with
  | nil => simp [setUsed]
  | cons hd tl ih =>
    obtain ⟨k, v⟩ := hd
    by_cases h : k = c
    · simp [setUsed, h]
    · simp [setUsed, h, ih]

/-- Every rejection of the bonus endpoint returns the account unchanged
(all error branches return before any mutation). -/
theorem redeem_bonus_err_eq (d : Nat) (u : User) (c m : String) (u' : User)
    (h : redeem_bonus d u c = .err m u') : u' = u := by
  unfold redeem_bonus at h
  repeat' split at h
  all_goals simp_all

/-- C6: For every code of the bonus table (all of which are daily codes
with non-negative awards): a redemption whose period key is not yet
recorded succeeds, credits exactly `code.points` and `code.dollars`, and
records today's date as the period key; a second redemption on the same
day rejects with "already used"; a redemption on any other day succeeds
again; every rejection leaves the account unchanged.  Were a one-time code
configured, the one-time branch would record the fixed sentinel and reject
every further redemption (that branch is proved from the code path itself;
the table currently contains no such code). -/
theorem C6_bonus_codes (code : String) (bonus : BonusInfo)
    (hb : lookupBonus code = some bonus) :
    bonus.daily = true ∧ 0 ≤ bonus.points ∧ 0 ≤ bonus.dollars ∧
    (∀ (d : Nat) (u : User), lookupUsed u code ≠ some (.onDate d) →
      redeem_bonus d u code =
        .ok bonus.points bonus.dollars
          { u with points := u.points + bonus.points,
                   social_dollars := u.social_dollars + bonus.dollars,
                   used_bonus_codes := setUsed u.used_bonus_codes code (.onDate d) }) ∧
    (∀ (d : Nat) (u : User), lookupUsed u code = some (.onDate d) →
      redeem_bonus d u code = .err "Code already used today" u) ∧
    (∀ (d : Nat) (u : User), lookupUsed
        { u with used_bonus_codes := setUsed u.used_bonus_codes code (.onDate d) } code
      = some (.onDate d)) ∧
    (∀ (d : Nat) (u : User) (m : String) (u' : User),
      redeem_bonus d u code = .err m u' → u' = u) ∧
    (bonus.daily = false → ∀ (d : Nat) (u : User),
      ((lookupUsed u code).isSome →
        redeem_bonus d u code = .err "Code already used" u) ∧
      (lookupUsed u code = none →
        redeem_bonus d u code =
          .ok bonus.points bonus.dollars
            { u with points := u.points + bonus.points,
                     social_dollars := u.social_dollars + bonus.dollars,
                     used_bonus_codes := setUsed u.used_bonus_codes code .flag })) := by
  obtain ⟨hnnp, hnnd, hdaily⟩ := lookupBonus_props code bonus hb
  have hne := lookupBonus_ne_empty code bonus hb
  have hpa : (if bonus.points > 0 then bonus.points else 0) = bonus.points := by
    split_ifs with h'
    · rfl
    · omega
  have hda : (if bonus.dollars > 0 then bonus.dollars else 0) = bonus.dollars := by
    split_ifs with h'
    · rfl
    · linarith
  refine ⟨hdaily, hnnp, hnnd, ?_, ?_, ?_, ?_, ?_⟩
  · intro d u hused
    simp [redeem_bonus, hb, hne, hdaily, hused, hpa, hda]
  · intro d u hused
    simp [redeem_bonus, hb, hne, hdaily, hused]
  · intro d u
    unfold lookupUsed
    exact lookupUsed_setUsed u.used_bonus_codes code (.onDate d)
  · intro d u m u' h
    exact redeem_bonus_err_eq d u code m u' h
  · intro hdf d u
    constructor
    · intro hsome
      simp [redeem_bonus, hb, hne, hdf, hsome]
    · intro hnone
      simp [redeem_bonus, hb, hne, hdf, hnone, hpa, hda]

/-- The account state after redeeming "BASER" on day 5. -/
def baserUser : User :=
  { mkUser 1 with points := 2000, used_bonus_codes := [("BASER", BonusMark.onDate 5)] }

/-- A concrete instantiation of C6: redeeming "BASER" (2000 points, daily)
on day 5 succeeds and records day 5; redeeming it again the same day
rejects and changes nothing; redeeming it on day 6 succeeds again. -/
theorem C6_bonus_codes_witness :
    redeem_bonus 5 (mkUser 1) "BASER" = .ok 2000 0 baserUser ∧
    redeem_bonus 5 baserUser "BASER" = .err "Code already used today" baserUser ∧
    redeem_bonus 6 baserUser "BASER"
      = .ok 2000 0 { baserUser with
                     points := 4000,
                     used_bonus_codes := [("BASER", BonusMark.onDate 6)] } := by
  have h := C6_bonus_codes "BASER" ⟨2000, 0, true⟩ rfl
  refine ⟨?_, ?_, ?_⟩
  · rw [h.2.2.2.1 5 (mkUser 1) (by simp [lookupUsed, mkUser])]
    simp [mkUser, baserUser, setUsed]
  · exact h.2.2.2.2.1 5 baserUser (by simp [lookupUsed, baserUser, mkUser])
  · rw [h.2.2.2.1 6 baserUser (by simp [lookupUsed, baserUser, mkUser])]
    simp [mkUser, baserUser, setUsed]

/-- C7: A premium ad view succeeds exactly when `premium_ad_count < 1`
after the decorator's daily reset: mid-cycle the first view awards
`int(1000 × multiplier)`, increments the counter and stamps the time;
every further view in the same cycle rejects with "limit reached" leaving
the account unchanged; once the current time passes `daily_reset` the
reset zeroes the counters, moves `daily_reset` to now + 24h, and a
premium ad view succeeds again. -/
theorem C7_premium_ad (now : Nat) (u : User) :
    (1 ≤ u.premium_ad_count → now ≤ u.daily_reset →
      complete_task_request now u "premium_ad" none
        = .err "Premium ad limit reached" u) ∧
    (u.premium_ad_count = 0 → now ≤ u.daily_reset →
      complete_task_request now u "premium_ad" none
        = .ok (pyInt (1000 * u.multiplier))
            { u with points := u.points + pyInt (1000 * u.multiplier),
                     premium_ad_count := 1,
                     last_premium_ad := some now }) ∧
    (u.daily_reset < now →
      complete_task_request now u "premium_ad" none
        = .ok (pyInt (1000 * u.multiplier))
            { u with points := u.points + pyInt (1000 * u.multiplier),
                     ad_count := 0,
                     premium_ad_count := 1,
                     daily_reset := now + 86400,
                     last_premium_ad := some now }) := by
  refine ⟨?_, ?_, ?_⟩
  · intro hc hle
    simp [complete_task_request, reset_daily_tasks, complete_task, not_lt.mpr hle, hc]
  · intro hc hle
    simp [complete_task_request, reset_daily_tasks, complete_task, not_lt.mpr hle, hc]
  · intro hreset
    simp [complete_task_request, reset_daily_tasks, complete_task, hreset]

/-- The account state after the first premium ad view of a fresh user. -/
def premiumUser : User :=
  { mkUser 1 with points := 1000, premium_ad_count := 1, last_premium_ad := some 0 }

/-- A concrete instantiation of C7: first premium view succeeds (1000 ×
multiplier 1.0), the second in the same cycle rejects unchanged, and after
the clock passes `daily_reset` a view succeeds again with the counters
reset. -/
theorem C7_premium_ad_witness :
    complete_task_request 0 (mkUser 1) "premium_ad" none = .ok 1000 premiumUser ∧
    complete_task_request 0 premiumUser "premium_ad" none
      = .err "Premium ad limit reached" premiumUser ∧
    complete_task_request 90000 premiumUser "premium_ad" none
      = .ok 1000 { premiumUser with
                   points := 2000,
                   daily_reset := 176400,
                   last_premium_ad := some 90000 } := by
  refine ⟨?_, ?_, ?_⟩
  · have h := (C7_premium_ad 0 (mkUser 1)).2.1 rfl (by norm_num [mkUser])
    rw [h]
    norm_num [mkUser, premiumUser, pyInt]
  · exact (C7_premium_ad 0 premiumUser).1 (by norm_num [premiumUser, mkUser])
      (by norm_num [premiumUser, mkUser])
  · have h := (C7_premium_ad 90000 premiumUser).2.2
      (by norm_num [premiumUser, mkUser])
    rw [h]
    norm_num [mkUser, premiumUser, pyInt]

/-- C8 counterexample: with the last site visit recorded exactly 24 hours
(86400 seconds) ago — not *more* than 24 hours — the attempt succeeds,
because the source gate `(utcnow() - last).days < 1` admits an elapsed
time of exactly one day.  The claim's strict "more than 24 hours in the
past" iff is therefore false at this input. -/
theorem C8_counterexample :
    complete_task 86400 { mkUser 1 with last_website_visit := some 0 }
        "website_visit" none
      = .ok 500 { mkUser 1 with points := 500, last_website_visit := some 86400 } ∧
    ¬ ((86400 : Nat) - 0 > 86400) := by
  refine ⟨?_, by norm_num⟩
  simp [complete_task, mkUser, pyInt]

/-- C8 (amended): a site-visit or video-watch task succeeds exactly when
its last-completion timestamp is unset or *at least* 24 hours (86400 s) in
the past; within strictly less than 24 hours the attempt rejects with
"already completed today" and changes nothing; on success it awards the
fixed base (500 site visit, 2000 video watch) × multiplier truncated to an
integer and moves the task's timestamp to now. -/
theorem C8_daily_tasks (now : Nat) (u : User) :
    (u.last_website_visit = none →
      complete_task now u "website_visit" none
        = .ok (pyInt (500 * u.multiplier))
            { u with points := u.points + pyInt (500 * u.multiplier),
                     last_website_visit := some now }) ∧
    (∀ t, u.last_website_visit = some t → now - t < 86400 →
      complete_task now u "website_visit" none
        = .err "Task already completed today" u) ∧
    (∀ t, u.last_website_visit = some t → 86400 ≤ now - t →
      complete_task now u "website_visit" none
        = .ok (pyInt (500 * u.multiplier))
            { u with points := u.points + pyInt (500 * u.multiplier),
                     last_website_visit := some now }) ∧
    (u.last_youtube_watch = none →
      complete_task now u "youtube_watch" none
        = .ok (pyInt (2000 * u.multiplier))
            { u with points := u.points + pyInt (2000 * u.multiplier),
                     last_youtube_watch := some now }) ∧
    (∀ t, u.last_youtube_watch = some t → now - t < 86400 →
      complete_task now u "youtube_watch" none
        = .err "Task already completed today" u) ∧
    (∀ t, u.last_youtube_watch = some t → 86400 ≤ now - t →
      complete_task now u "youtube_watch" none
        = .ok (pyInt (2000 * u.multiplier))
            { u with points := u.points + pyInt (2000 * u.multiplier),
                     last_youtube_watch := some now }) := by
  refine ⟨?_, ?_, ?_, ?_, ?_, ?_⟩
  · intro h
    simp [complete_task, h]
  · intro t ht hlt
    simp [complete_task, ht, Nat.div_eq_of_lt hlt]
  · intro t ht hge
    have h1 : 1 ≤ (now - t) / 86400 :=
      (Nat.one_le_div_iff (by norm_num)).mpr hge
    simp [complete_task, ht, Nat.not_lt.mpr h1]
  · intro h
    simp [complete_task, h]
  · intro t ht hlt
    simp [complete_task, ht, Nat.div_eq_of_lt hlt]
  · intro t ht hge
    have h1 : 1 ≤ (now - t) / 86400 :=
      (Nat.one_le_div_iff (by norm_num)).mpr hge
    simp [complete_task, ht, Nat.not_lt.mpr h1]

/-- A concrete instantiation of C8 (amended): a repeat site visit 100
seconds after the first rejects unchanged; a fresh video watch succeeds
with `int(2000 × 1.0) = 2000` points; a site visit 100000 s (> 24 h) after
the first succeeds again. -/
theorem C8_daily_tasks_witness :
    complete_task 100 { mkUser 1 with last_website_visit := some 0 }
        "website_visit" none
      = .err "Task already completed today" { mkUser 1 with last_website_visit := some 0 } ∧
    complete_task 5 (mkUser 1) "youtube_watch" none
      = .ok 2000 { mkUser 1 with points := 2000, last_youtube_watch := some 5 } ∧
    complete_task 100000 { mkUser 1 with last_website_visit := some 0 }
        "website_visit" none
      = .ok 500 { mkUser 1 with points := 500, last_website_visit := some 100000 } := by
  refine ⟨?_, ?_, ?_⟩
  · exact (C8_daily_tasks 100 { mkUser 1 with last_website_visit := some 0 }).2.1
      0 rfl (by norm_num)
  · have h := (C8_daily_tasks 5 (mkUser 1)).2.2.2.1 rfl
    rw [h]
    norm_num [mkUser, pyInt]
  · have h := (C8_daily_tasks 100000 { mkUser 1 with last_website_visit := some 0 }).2.2.1
      0 rfl (by norm_num)
    rw [h]
    norm_num [mkUser, pyInt]

/-- C9: An ad view is never rejected: it always awards
`int(currentTier.adReward × multiplier)` points, increments `ad_count` and
stamps `last_ad_watch`; at tier "Brute" (reached at 50 referrals,
multiplier 1.2, adReward 74) the award is `int(74 × 1.2) = 88`. -/
theorem C9_ad_view (now : Nat) (u : User) (ct : Tier)
    (hct : tiers_find u.tier = some ct) :
    complete_task now u "ad_watch" none
      = .ok (pyInt ((ct.adReward : ℚ) * u.multiplier))
          { u with points := u.points + pyInt ((ct.adReward : ℚ) * u.multiplier),
                   ad_count := u.ad_count + 1,
                   last_ad_watch := some now } ∧
    (u.tier = "Brute" → u.multiplier = 6/5 →
      pyInt ((ct.adReward : ℚ) * u.multiplier) = 88) ∧
    calculate_tier 50 = "Brute" := by
  refine ⟨?_, ?_, by decide⟩
  · simp [complete_task, hct]
  · intro ht hm
    rw [ht] at hct
    have hbr : ct = ⟨"Brute", 50, 6/5, 74, 1500⟩ := by
      rw [show tiers_find "Brute" = some ⟨"Brute", 50, 6/5, 74, 1500⟩ from rfl] at hct
      exact (Option.some_injective _ hct.symm)
    rw [hbr, hm]
    norm_num [pyInt]

/-- A "Brute"-tier account as the engine produces it after 50 referrals. -/
def bruteUser : User :=
  { mkUser 3 with referrals := 50, tier := "Brute", multiplier := 6/5 }

/-- A concrete instantiation of C9: one ad view of a "Brute" account adds
exactly 88 points. -/
theorem C9_ad_view_witness :
    complete_task 7 bruteUser "ad_watch" none
      = .ok 88 { bruteUser with points := 88, ad_count := 1, last_ad_watch := some 7 } := by
  have h := C9_ad_view 7 bruteUser ⟨"Brute", 50, 6/5, 74, 1500⟩ rfl
  have h88 := h.2.1 rfl rfl
  rw [h.1, h88]
  norm_num [bruteUser, mkUser]

/-- An unknown platform string never matches a completed column, so the
lookup defaults to false. -/
theorem social_completed_unknown (u : User) (p : String) (hp : p ∉ SOCIAL_KEYS) :
    social_completed u p = false := by
  simp [SOCIAL_KEYS] at hp
  obtain ⟨h1, h2, h3, h4, h5, h6, h7⟩ := hp
  simp [social_completed, h1, h2, h3, h4, h5, h6, h7]

/-- For an unknown platform string the `setattr` writes no mapped column,
so the persisted account is unchanged. -/
theorem set_social_unknown (u : User) (p : String) (hp : p ∉ SOCIAL_KEYS) :
    set_social u p = u := by
  simp [SOCIAL_KEYS] at hp
  obtain ⟨h1, h2, h3, h4, h5, h6, h7⟩ := hp
  simp [set_social, h1, h2, h3, h4, h5, h6, h7]

/-- C10 counterexample: the empty string is a platform string that is not
one of the seven supported keys, yet its claim does not succeed — it is
rejected with "Platform not specified" (the endpoint's falsy-platform
check), so "each such call succeeds and credits 50" fails at this input. -/
theorem C10_counterexample :
    complete_task 0 (mkUser 1) "social" (some "")
      = .err "Platform not specified" (mkUser 1) ∧
    "" ∉ SOCIAL_KEYS := by
  refine ⟨?_, by decide⟩
  simp [complete_task]

/-- C10 (amended): for every *non-empty* platform string outside the seven
supported keys the completed-flag lookup defaults to false and no
persisted flag ever exists, so the claim succeeds and credits 50 social
dollars again on every call; an empty or missing platform is rejected with
"Platform not specified"; only the seven known keys are one-time (a
completed key rejects with "already completed", an uncompleted one is
claimed once and its flag set). -/
theorem C10_social_platforms (now : Nat) (u : User) (p : String) :
    (p ≠ "" → p ∉ SOCIAL_KEYS →
      social_completed u p = false ∧
      complete_task now u "social" (some p)
        = .ok 50 { u with social_dollars := u.social_dollars + 50 } ∧
      complete_task now { u with social_dollars := u.social_dollars + 50 } "social" (some p)
        = .ok 50 { u with social_dollars := u.social_dollars + 50 + 50 }) ∧
    (p ∈ SOCIAL_KEYS → social_completed u p = true →
      complete_task now u "social" (some p) = .err "Task already completed" u) ∧
    (p ∈ SOCIAL_KEYS → social_completed u p = false →
      complete_task now u "social" (some p)
        = .ok 50 { (set_social u p) with social_dollars := u.social_dollars + 50 } ∧
      social_completed (set_social u p) p = true) := by
  refine ⟨?_, ?_, ?_⟩
  · intro hne hp
    have hc := social_completed_unknown u p hp
    have hs := set_social_unknown u p hp
    refine ⟨hc, ?_, ?_⟩
    · simp [complete_task, hne, hc, hs]
    · have hc' := social_completed_unknown
        { u with social_dollars := u.social_dollars + 50 } p hp
      have hs' := set_social_unknown
        { u with social_dollars := u.social_dollars + 50 } p hp
      simp [complete_task, hne, hc', hs']
  · intro hp hc
    have hne : p ≠ "" := by
      intro h
      subst h
      simp [SOCIAL_KEYS] at hp
    simp [complete_task, hne, hc]
  · intro hp hc
    simp [SOCIAL_KEYS] at hp
    rcases hp with rfl | rfl | rfl | rfl | rfl | rfl | rfl <;>
      simp_all [complete_task, social_completed, set_social]

/-- A concrete instantiation of C10 (amended): the unknown platform
"tiktok" is credited 50 social dollars on every call (twice here), and the
known key "twitter" is claimed once, setting its flag. -/
theorem C10_social_platforms_witness :
    complete_task 0 (mkUser 1) "social" (some "tiktok")
      = .ok 50 { mkUser 1 with social_dollars := 50 } ∧
    complete_task 0 { mkUser 1 with social_dollars := 50 } "social" (some "tiktok")
      = .ok 50 { mkUser 1 with social_dollars := 100 } ∧
    complete_task 0 (mkUser 1) "social" (some "twitter")
      = .ok 50 { mkUser 1 with twitter_completed := true, social_dollars := 50 } := by
  have h := (C10_social_platforms 0 (mkUser 1) "tiktok").1 (by decide) (by decide)
  have hk := (C10_social_platforms 0 (mkUser 1) "twitter").2.2
    (by decide) (by simp [social_completed, mkUser])
  refine ⟨?_, ?_, ?_⟩
  · rw [h.2.1]
    norm_num [mkUser]
  · have h2 := h.2.2
    rw [show ({ mkUser 1 with social_dollars := (mkUser 1).social_dollars + 50 } : User)
          = { mkUser 1 with social_dollars := 50 } by norm_num [mkUser]] at h2
    rw [h2]
    norm_num [mkUser]
  · rw [hk.1]
    simp [mkUser, set_social]
